import Mathlib

/-!
Shallow embedding of the WhatsApp session manager of
`src/whatsappBaileys.ts` and its consumer `mensagens.create`
(src/unnamed/part_001), together with proofs about the spec's claims.

The module-level mutable variables `sock`, `isConnected`, `qrCode` and the
on-disk credential directory `AUTH_DIR` become the fields of `WAState`.
Transport instances are tracked by numeric ids; `live` records the ids of
transports that have been created and not closed, so that "at most one live
Transport" becomes a statement about `live`.
-/

namespace CrmGas

/-- DisconnectReason.loggedOut from the Baileys library (HTTP 401). -/
def loggedOut : Nat := 401

/-- Opaque credential blob stored in AUTH_DIR ("baileys_auth"). -/
structure Creds where
  blob : Nat
deriving DecidableEq, Repr

/-- The module state of src/whatsappBaileys.ts: the globals `sock`,
`isConnected`, `qrCode`, the credential directory, plus bookkeeping for
which transport instances are live. -/
structure WAState where
  sock : Option Nat
  isConnected : Bool
  qrCode : Option String
  authDir : Option Creds
  live : List Nat
  nextId : Nat
deriving DecidableEq, Repr

/-- A `connection.update` payload: optional `connection` tag
("close" / "open"), optional disconnect status code, optional `qr`. -/
structure ConnUpdate where
  connection : Option String
  statusCode : Option Nat
  qr : Option String
deriving DecidableEq, Repr

/-- `initWhatsAppConnection` (lines 19-72): unconditionally builds a fresh
socket via `makeWASocket` and stores it in the module global `sock`; the
previous socket, if any, is neither closed nor reused. -/
def initWhatsAppConnection (st : WAState) : WAState :=
  { st with
    sock := some st.nextId
    live := st.nextId :: st.live
    nextId := st.nextId + 1 }

/-- The `connection.update` handler (lines 35-63): a truthy `qr` is stored;
on "close", `isConnected := false` and, when the status code differs from
`DisconnectReason.loggedOut`, `initWhatsAppConnection` is re-invoked; on
"open", `isConnected := true` and `qrCode := null`. -/
def handleConnectionUpdate (st : WAState) (u : ConnUpdate) : WAState :=
  let st1 :=
    match u.qr with
    | some q => if q = "" then st else { st with qrCode := some q }
    | none => st
  if u.connection = some "close" then
    let shouldReconnect := u.statusCode ≠ some loggedOut
    let st2 := { st1 with isConnected := false }
    if shouldReconnect then initWhatsAppConnection st2 else st2
  else if u.connection = some "open" then
    { st1 with isConnected := true, qrCode := none }
  else
    st1

/-- `saveCreds`, registered on `creds.update` (line 65): the transport hands
over a complete fresh blob which overwrites the credential directory. -/
def saveCreds (st : WAState) (c : Creds) : WAState :=
  { st with authDir := some c }

/-- `disconnectWhatsApp` (lines 132-146): only when `sock` is non-null does
it log the socket out, null the globals and delete AUTH_DIR; with no socket
it does nothing at all. -/
def disconnectWhatsApp (st : WAState) : WAState :=
  match st.sock with
  | none => st
  | some tid =>
    { sock := none
      isConnected := false
      qrCode := none
      authDir := none
      live := st.live.erase tid
      nextId := st.nextId }

/-- The status object returned by `getWhatsAppStatus` (lines 122-127). -/
structure WAStatus where
  connected : Bool
  qrCode : Option String
deriving DecidableEq, Repr

/-- `getWhatsAppStatus` (lines 122-127). -/
def getWhatsAppStatus (st : WAState) : WAStatus :=
  { connected := st.isConnected, qrCode := st.qrCode }

/-- One externally triggered action on the module state. -/
inductive WAAction where
  | connect
  | event (u : ConnUpdate)
  | credsUpdate (c : Creds)
  | logout
deriving DecidableEq, Repr

/-- Interpretation of one action. -/
def stepA (st : WAState) : WAAction → WAState
  | WAAction.connect => initWhatsAppConnection st
  | WAAction.event u => handleConnectionUpdate st u
  | WAAction.credsUpdate c => saveCreds st c
  | WAAction.logout => disconnectWhatsApp st

/-- Interpretation of a sequence of actions. -/
def runA (st : WAState) (acts : List WAAction) : WAState :=
  acts.foldl stepA st

/-- The state at process start: no socket, not connected, no QR code,
whatever credentials a previous run left on disk. -/
def initialState (creds : Option Creds) : WAState :=
  { sock := none
    isConnected := false
    qrCode := none
    authDir := creds
    live := []
    nextId := 0 }

/-- A state the module can actually be in. -/
def WAReachable (st : WAState) : Prop :=
  ∃ creds acts, runA (initialState creds) acts = st

/-! ### Phone-number normalization (lines 91-97) -/

/-- `telefone.replace(/\D/g, "")`: keep only the digit characters. -/
def digitsOnly (l : List Char) : List Char :=
  l.filter Char.isDigit

/-- `telefoneFormatado.startsWith("55")`. -/
def startsWith55 : List Char → Bool
  | '5' :: '5' :: _ => true
  | _ => false

/-- Strip non-digits, then prepend "55" unless already present. -/
def normalizeDigits (l : List Char) : List Char :=
  let d := digitsOnly l
  if startsWith55 d then d else '5' :: '5' :: d

/-- The normalized phone number as a string. -/
def formatTelefone (t : String) : String :=
  String.mk (normalizeDigits t.toList)

/-- The recipient identifier handed to `sock.sendMessage` (line 97). -/
def jidOf (t : String) : String :=
  formatTelefone t ++ "@s.whatsapp.net"

/-! ### The send path (lines 77-117) and mensagens.create -/

/-- The `key` object of a Baileys send result. -/
structure MsgKey where
  id : Option String
deriving DecidableEq, Repr

/-- The (possibly undefined) result of `sock.sendMessage`. -/
structure SendResult where
  key : Option MsgKey
deriving DecidableEq, Repr

/-- The value returned by `enviarMensagemBaileys`. -/
structure EnvioResult where
  success : Bool
  error : Option String
  messageId : Option String
deriving DecidableEq, Repr

/-- JavaScript `x || d` on an optional string: `d` when `x` is absent or
the empty string. -/
def jsOr (x : Option String) (d : String) : String :=
  match x with
  | some s => if s = "" then d else s
  | none => d

/-- `enviarMensagemBaileys` (lines 77-117). The transport is a function
from (jid, text) to either a thrown error or a (possibly undefined)
send result. The second component records the call made to
`sock.sendMessage`, if any. -/
def enviarMensagemBaileys (st : WAState)
    (sendMessage : String → String → Except String (Option SendResult))
    (telefone mensagem : String) :
    EnvioResult × Option (String × String) :=
  if st.sock.isNone || !st.isConnected then
    ({ success := false
       error := some "WhatsApp não conectado. Escaneie o QR Code em Configurações."
       messageId := none }, none)
  else
    let j := jidOf telefone
    match sendMessage j mensagem with
    | Except.ok result =>
      ({ success := true
         error := none
         messageId :=
           some (jsOr (Option.bind (Option.bind result (fun r => r.key))
             (fun k => k.id)) "sent") }, some (j, mensagem))
    | Except.error e =>
      ({ success := false
         error := some (jsOr (some e) "Erro ao enviar mensagem")
         messageId := none }, some (j, mensagem))

/-- A row of the `clientes` table, restricted to what mensagens.create
reads. -/
structure Cliente where
  id : Nat
  telefone : Option String
deriving DecidableEq, Repr

/-- JavaScript falsiness of `cliente.telefone`: null/undefined or "". -/
def telefoneFalsy : Option String → Bool
  | none => true
  | some s => s = ""

/-- The validated input of mensagens.create. -/
structure MensagemInput where
  clienteId : Nat
  tipo : String
  conteudo : String
deriving DecidableEq, Repr

/-- The row handed to `db.createMensagem` by mensagens.create: the spread
input plus `status`, `dataEnvio` and `usuarioId` — and nothing else. -/
structure MensagemRecord where
  clienteId : Nat
  tipo : String
  conteudo : String
  status : String
  dataEnvio : Option Nat
  usuarioId : Option Nat
deriving DecidableEq, Repr

/-- What a call of mensagens.create did: the rows it persisted and either
the value it returned or the error it threw. -/
structure CreateOutcome where
  persisted : List MensagemRecord
  result : Except String (Bool × Option String)
deriving Repr

/-- mensagens.create (src/unnamed/part_001 lines 333-371): look up the
client, reject a missing client or phone, call `enviarMensagemBaileys`,
persist exactly one row whose status and `dataEnvio` reflect the outcome,
then throw on failure or return `{success: true, messageId}`. -/
def mensagensCreate (cliente : Option Cliente) (st : WAState)
    (sendMessage : String → String → Except String (Option SendResult))
    (now : Nat) (userId : Option Nat) (input : MensagemInput) :
    CreateOutcome :=
  match cliente with
  | none => { persisted := [], result := Except.error "Cliente não encontrado" }
  | some c =>
    if telefoneFalsy c.telefone then
      { persisted := []
        result := Except.error "Cliente não possui telefone cadastrado" }
    else
      let resultado :=
        (enviarMensagemBaileys st sendMessage (c.telefone.getD "")
          input.conteudo).1
      let registro : MensagemRecord :=
        { clienteId := input.clienteId
          tipo := input.tipo
          conteudo := input.conteudo
          status := if resultado.success then "enviada" else "erro"
          dataEnvio := if resultado.success then some now else none
          usuarioId := userId }
      if resultado.success then
        { persisted := [registro]
          result := Except.ok (true, resultado.messageId) }
      else
        { persisted := [registro]
          result := Except.error (jsOr resultado.error "Erro ao enviar mensagem") }

/-- Bookkeeping invariant of the embedding: every live transport id is
below the id counter, and the installed socket, when present, is live. -/
def Inv (st : WAState) : Prop :=
  (∀ i ∈ st.live, i < st.nextId) ∧ (∀ k, st.sock = some k → k ∈ st.live)

theorem digitsOnly_all (l : List Char) :
    (digitsOnly l).all Char.isDigit = true := by
  rw [List.all_eq_true]
  intro a ha
  exact (List.mem_filter.mp ha).2

theorem digitsOnly_of_all (l : List Char) (h : l.all Char.isDigit = true) :
    digitsOnly l = l :=
  List.filter_eq_self.mpr (List.all_eq_true.mp h)

theorem normalizeDigits_all (l : List Char) :
    (normalizeDigits l).all Char.isDigit = true := by
  cases h : startsWith55 (digitsOnly l) with
  | true =>
    have he : normalizeDigits l = digitsOnly l := by
      unfold normalizeDigits; simp [h]
    rw [he]; exact digitsOnly_all l
  | false =>
    have he : normalizeDigits l = '5' :: '5' :: digitsOnly l := by
      unfold normalizeDigits; simp [h]
    have h5 : Char.isDigit '5' = true := by decide
    rw [he]
    simp [List.all_cons, h5, digitsOnly_all l]

theorem normalizeDigits_starts (l : List Char) :
    startsWith55 (normalizeDigits l) = true := by
  cases h : startsWith55 (digitsOnly l) with
  | true =>
    have he : normalizeDigits l = digitsOnly l := by
      unfold normalizeDigits; simp [h]
    rw [he, h]
  | false =>
    have he : normalizeDigits l = '5' :: '5' :: digitsOnly l := by
      unfold normalizeDigits; simp [h]
    rw [he]
    rfl

theorem normalizeDigits_fixed (m : List Char)
    (h1 : digitsOnly m = m) (h2 : startsWith55 m = true) :
    normalizeDigits m = m := by
  unfold normalizeDigits
  simp [h1, h2]

theorem normalizeDigits_idem (l : List Char) :
    normalizeDigits (normalizeDigits l) = normalizeDigits l :=
  normalizeDigits_fixed _
    (digitsOnly_of_all _ (normalizeDigits_all l))
    (normalizeDigits_starts l)

/-- C6: phone-number normalization (strip non-digits, prepend "55" when
absent) is idempotent on every string, and "(88) 99671-0011" and
"5588996710011" normalize to the identical recipient identifier. -/
theorem phone_normalization_idempotent :
    (∀ t : String, formatTelefone (formatTelefone t) = formatTelefone t) ∧
    formatTelefone "(88) 99671-0011" = formatTelefone "5588996710011" := by
  constructor
  · intro t
    show String.mk (normalizeDigits (normalizeDigits t.toList)) =
      String.mk (normalizeDigits t.toList)
    exact congrArg String.mk (normalizeDigits_idem t.toList)
  · decide

/-- C1: on every transport close event, when the status code differs from
DisconnectReason.loggedOut (a Transient close) the manager immediately
re-invokes connect without any external call — a fresh transport is created
and installed; when the reason is loggedOut it records connected = false
and creates no new transport (sock, live set and id counter unchanged), so
it stays disconnected until an explicit connect. -/
theorem close_event_reconnect_policy (st : WAState) (sc : Option Nat)
    (qq : Option String) :
    let st' := handleConnectionUpdate st
      { connection := some "close", statusCode := sc, qr := qq }
    st'.isConnected = false ∧
    st'.sock = (if sc = some loggedOut then st.sock else some st.nextId) ∧
    st'.live = (if sc = some loggedOut then st.live else st.nextId :: st.live) ∧
    st'.nextId = (if sc = some loggedOut then st.nextId else st.nextId + 1) := by
  rcases qq with _ | q
  · by_cases h : sc = some loggedOut <;>
      simp [handleConnectionUpdate, initWhatsAppConnection, h]
  · by_cases h : sc = some loggedOut <;> by_cases hq : q = "" <;>
      simp [handleConnectionUpdate, initWhatsAppConnection, h, hq]

/-- C3: when there is no transport instance or the connection is not open,
send returns the NotConnected failure at once and does not invoke the
transport. -/
theorem send_fails_fast_when_not_open (st : WAState)
    (sendMessage : String → String → Except String (Option SendResult))
    (t m : String) (h : st.sock = none ∨ st.isConnected = false) :
    enviarMensagemBaileys st sendMessage t m =
      ({ success := false
         error := some "WhatsApp não conectado. Escaneie o QR Code em Configurações."
         messageId := none }, none) := by
  rcases h with h | h <;> simp [enviarMensagemBaileys, h]

/-- Witness for C3: at the start state send fails fast. -/
theorem send_fails_fast_when_not_open_witness :
    enviarMensagemBaileys (initialState none)
      (fun _ _ => Except.ok none) "88 99671-0011" "hello" =
      ({ success := false
         error := some "WhatsApp não conectado. Escaneie o QR Code em Configurações."
         messageId := none }, none) :=
  send_fails_fast_when_not_open _ _ _ _ (Or.inl rfl)

/-- C7: in the Open state, when the transport accepts the message with id
"m1", send("88 99671-0011", "hello") returns success with messageId "m1". -/
theorem send_passes_through_transport_id (st : WAState)
    (sendMessage : String → String → Except String (Option SendResult))
    (k : Nat) (hs : st.sock = some k) (hc : st.isConnected = true)
    (hsend : sendMessage "5588996710011@s.whatsapp.net" "hello" =
      Except.ok (some { key := some { id := some "m1" } })) :
    enviarMensagemBaileys st sendMessage "88 99671-0011" "hello" =
      ({ success := true, error := none, messageId := some "m1" },
        some ("5588996710011@s.whatsapp.net", "hello")) := by
  have hj : jidOf "88 99671-0011" = "5588996710011@s.whatsapp.net" := by decide
  simp [enviarMensagemBaileys, hs, hc, hj, hsend, jsOr]

/-- Witness for C7 at a concrete open state and transport. -/
theorem send_passes_through_transport_id_witness :
    enviarMensagemBaileys
      { sock := some 0, isConnected := true, qrCode := none,
        authDir := none, live := [0], nextId := 1 }
      (fun _ _ => Except.ok (some { key := some { id := some "m1" } }))
      "88 99671-0011" "hello" =
      ({ success := true, error := none, messageId := some "m1" },
        some ("5588996710011@s.whatsapp.net", "hello")) :=
  send_passes_through_transport_id _ _ 0 rfl rfl rfl

/-- Helper: the transport call made by send is either absent or exactly
(jidOf telefone, mensagem). -/
theorem enviar_call_shape (st : WAState)
    (sendMessage : String → String → Except String (Option SendResult))
    (t m : String) :
    (enviarMensagemBaileys st sendMessage t m).2 = none ∨
    (enviarMensagemBaileys st sendMessage t m).2 = some (jidOf t, m) := by
  unfold enviarMensagemBaileys
  split
  · left; rfl
  · right
    cases hr : sendMessage (jidOf t) m <;> simp [hr]

/-- C9: whenever send invokes the transport, the recipient identifier it
hands over has the shape d@s.whatsapp.net where d consists only of digit
characters and starts with "55". -/
theorem jid_always_digits_with_prefix (st : WAState)
    (sendMessage : String → String → Except String (Option SendResult))
    (t m j mm : String)
    (h : (enviarMensagemBaileys st sendMessage t m).2 = some (j, mm)) :
    ∃ d : List Char,
      j = String.mk (d ++ "@s.whatsapp.net".toList) ∧
      d.all Char.isDigit = true ∧ startsWith55 d = true := by
  refine ⟨normalizeDigits t.toList, ?_, normalizeDigits_all _,
    normalizeDigits_starts _⟩
  rcases enviar_call_shape st sendMessage t m with h2 | h2
  · rw [h2] at h; cases h
  · rw [h2] at h
    simp only [Option.some.injEq, Prod.mk.injEq] at h
    rw [← h.1]
    rfl

/-- Witness for C9 at a concrete open state and input. -/
theorem jid_always_digits_with_prefix_witness :
    ∃ d : List Char,
      "5588996710011@s.whatsapp.net" = String.mk (d ++ "@s.whatsapp.net".toList) ∧
      d.all Char.isDigit = true ∧ startsWith55 d = true :=
  jid_always_digits_with_prefix
    { sock := some 0, isConnected := true, qrCode := none,
      authDir := none, live := [0], nextId := 1 }
    (fun _ _ => Except.ok none) "(88) 99671-0011" "hi"
    "5588996710011@s.whatsapp.net" "hi" rfl

/-- C10: in the Open state, when the transport accepts the message but
reports no key id, the caller still receives success with the placeholder
messageId "sent". -/
theorem send_defaults_message_id (st : WAState)
    (sendMessage : String → String → Except String (Option SendResult))
    (k : Nat) (t m : String) (result : Option SendResult)
    (hs : st.sock = some k) (hc : st.isConnected = true)
    (hres : sendMessage (jidOf t) m = Except.ok result)
    (hid : Option.bind (Option.bind result (fun r => r.key))
      (fun kk => kk.id) = none) :
    (enviarMensagemBaileys st sendMessage t m).1 =
      { success := true, error := none, messageId := some "sent" } := by
  simp [enviarMensagemBaileys, hs, hc, hres, hid, jsOr]

/-- Witness for C10: the transport returns an undefined result. -/
theorem send_defaults_message_id_witness :
    (enviarMensagemBaileys
      { sock := some 0, isConnected := true, qrCode := none,
        authDir := none, live := [0], nextId := 1 }
      (fun _ _ => Except.ok none) "88 99671-0011" "hello").1 =
      { success := true, error := none, messageId := some "sent" } :=
  send_defaults_message_id _ _ 0 _ _ none rfl rfl rfl rfl

theorem inv_initialState (creds : Option Creds) : Inv (initialState creds) := by
  constructor
  · intro i hi
    cases hi
  · intro k hk
    cases hk

theorem inv_connect (st : WAState) (h : Inv st) :
    Inv (initWhatsAppConnection st) := by
  obtain ⟨h1, h2⟩ := h
  constructor
  · intro i hi
    rcases List.mem_cons.mp hi with rfl | hi
    · exact Nat.lt_succ_self _
    · exact Nat.lt_succ_of_lt (h1 i hi)
  · intro k hk
    simp only [initWhatsAppConnection, Option.some.injEq] at hk
    exact List.mem_cons.mpr (Or.inl hk.symm)

theorem inv_update (st : WAState) (u : ConnUpdate) (h : Inv st) :
    Inv (handleConnectionUpdate st u) := by
  simp only [handleConnectionUpdate]
  split <;> (try split) <;> (try split) <;>
    first
    | exact h
    | exact inv_connect _ h
    | (split <;> first | exact h | exact inv_connect _ h)

theorem inv_saveCreds (st : WAState) (c : Creds) (h : Inv st) :
    Inv (saveCreds st c) := h

theorem inv_logout (st : WAState) (h : Inv st) :
    Inv (disconnectWhatsApp st) := by
  obtain ⟨h1, h2⟩ := h
  unfold disconnectWhatsApp
  cases hs : st.sock with
  | none => exact ⟨h1, h2⟩
  | some tid =>
    constructor
    · intro i hi
      exact h1 i (List.mem_of_mem_erase hi)
    · intro k hk
      exact Option.noConfusion hk

theorem inv_step (st : WAState) (a : WAAction) (h : Inv st) :
    Inv (stepA st a) := by
  cases a with
  | connect => exact inv_connect st h
  | event u => exact inv_update st u h
  | credsUpdate c => exact inv_saveCreds st c h
  | logout => exact inv_logout st h

theorem inv_run (st : WAState) (acts : List WAAction) (h : Inv st) :
    Inv (runA st acts) := by
  induction acts generalizing st with
  | nil => exact h
  | cons a as ih => exact ih _ (inv_step st a h)

theorem inv_reachable (st : WAState) (h : WAReachable st) : Inv st := by
  obtain ⟨creds, acts, rfl⟩ := h
  exact inv_run _ _ (inv_initialState creds)

/-- C2 counterexample: from the reachable Open state (one connect, then an
"open" event) exactly one transport is live, and one more connect() leaves
two live transports — the re-entrant connect is neither rejected nor a
no-op. -/
theorem reentrant_connect_spawns_second_transport_cex :
    (runA (initialState none)
        [WAAction.connect,
         WAAction.event { connection := some "open", statusCode := none, qr := none }]).isConnected
      = true ∧
    (runA (initialState none)
        [WAAction.connect,
         WAAction.event { connection := some "open", statusCode := none, qr := none }]).live.length
      = 1 ∧
    (runA (initialState none)
        [WAAction.connect,
         WAAction.event { connection := some "open", statusCode := none, qr := none },
         WAAction.connect]).live.length = 2 := by
  decide

/-- C2 amended: connect() is not guarded — invoked in any reachable state
that already has an installed transport, it creates and installs a fresh
transport while the previous one stays live, so two live transports
result. -/
theorem reentrant_connect_spawns_second_transport (st : WAState)
    (h : WAReachable st) (k : Nat) (hs : st.sock = some k) :
    (initWhatsAppConnection st).sock = some st.nextId ∧
    (initWhatsAppConnection st).sock ≠ some k ∧
    k ∈ (initWhatsAppConnection st).live ∧
    2 ≤ (initWhatsAppConnection st).live.length := by
  obtain ⟨hlt, hmem⟩ := inv_reachable st h
  have hk : k ∈ st.live := hmem k hs
  have hkn : k < st.nextId := hlt k hk
  refine ⟨rfl, ?_, ?_, ?_⟩
  · intro he
    simp only [initWhatsAppConnection, Option.some.injEq] at he
    omega
  · exact List.mem_cons_of_mem _ hk
  · have hpos : 0 < st.live.length :=
      List.length_pos.mpr (List.ne_nil_of_mem hk)
    simp only [initWhatsAppConnection, List.length_cons]
    omega

/-- Witness for the amended C2 at the reachable Open state. -/
theorem reentrant_connect_spawns_second_transport_witness :
    (initWhatsAppConnection (runA (initialState none)
        [WAAction.connect,
         WAAction.event { connection := some "open", statusCode := none, qr := none }])).sock
      = some 1 ∧
    (initWhatsAppConnection (runA (initialState none)
        [WAAction.connect,
         WAAction.event { connection := some "open", statusCode := none, qr := none }])).sock
      ≠ some 0 ∧
    0 ∈ (initWhatsAppConnection (runA (initialState none)
        [WAAction.connect,
         WAAction.event { connection := some "open", statusCode := none, qr := none }])).live ∧
    2 ≤ (initWhatsAppConnection (runA (initialState none)
        [WAAction.connect,
         WAAction.event { connection := some "open", statusCode := none, qr := none }])).live.length :=
  reentrant_connect_spawns_second_transport _ ⟨none, _, rfl⟩ 0 rfl

/-- C4 counterexample: connect, a QR event, then a loggedOut close reach a
state whose status is connected = false with the pairing code still set —
the close transition to Disconnected did not clear it, so the code is
non-null outside AwaitingPairing. -/
theorem qr_survives_close_cex :
    getWhatsAppStatus (runA (initialState none)
        [WAAction.connect,
         WAAction.event { connection := none, statusCode := none, qr := some "ABC123" },
         WAAction.event { connection := some "close", statusCode := some loggedOut, qr := none }])
      = { connected := false, qrCode := some "ABC123" } := by
  decide

/-- C4 amended: the pairing code is cleared on every "open" transition and
by logout when a socket exists, but a transport close event never clears
it — after a close the previous value persists. -/
theorem qr_clearing_policy (st : WAState) (sc : Option Nat) :
    (handleConnectionUpdate st
        { connection := some "open", statusCode := none, qr := none }).qrCode = none ∧
    (handleConnectionUpdate st
        { connection := some "close", statusCode := sc, qr := none }).qrCode = st.qrCode ∧
    (disconnectWhatsApp st).qrCode = (if st.sock = none then st.qrCode else none) := by
  refine ⟨?_, ?_, ?_⟩
  · simp [handleConnectionUpdate]
  · by_cases h : sc = some loggedOut <;>
      simp [handleConnectionUpdate, initWhatsAppConnection, h]
  · cases hs : st.sock <;> simp [disconnectWhatsApp, hs]

/-- C5 counterexample: at the start state with credentials persisted by a
previous run (sock is null), logout() is a complete no-op, so the
credential store still holds the blob afterwards. -/
theorem logout_noop_keeps_credentials_cex :
    disconnectWhatsApp (initialState (some { blob := 7 }))
      = initialState (some { blob := 7 }) ∧
    (disconnectWhatsApp (initialState (some { blob := 7 }))).authDir
      = some { blob := 7 } := by
  decide

/-- C5 amended: after logout() from any state in which a transport instance
exists, status reports connected = false with a null pairing code, the
credential store is cleared and the socket is gone; with no transport
instance logout() is a no-op. -/
theorem logout_clears_state_when_socket_present (st : WAState) (k : Nat)
    (hs : st.sock = some k) :
    getWhatsAppStatus (disconnectWhatsApp st)
      = { connected := false, qrCode := none } ∧
    (disconnectWhatsApp st).authDir = none ∧
    (disconnectWhatsApp st).sock = none := by
  simp [disconnectWhatsApp, hs, getWhatsAppStatus]

/-- Witness for the amended C5 right after a connect. -/
theorem logout_clears_state_when_socket_present_witness :
    getWhatsAppStatus (disconnectWhatsApp
        (runA (initialState (some { blob := 3 })) [WAAction.connect]))
      = { connected := false, qrCode := none } ∧
    (disconnectWhatsApp
        (runA (initialState (some { blob := 3 })) [WAAction.connect])).authDir = none ∧
    (disconnectWhatsApp
        (runA (initialState (some { blob := 3 })) [WAAction.connect])).sock = none :=
  logout_clears_state_when_socket_present _ 0 rfl

/-- C8 counterexample: two successful runs of mensagens.create that differ
only in the transport-assigned identifier ("m1" vs "m2") return different
message ids to the caller yet persist identical rows — the persisted
delivery record cannot contain the returned message identifier. -/
theorem persisted_record_lacks_message_id_cex :
    (mensagensCreate (some { id := 1, telefone := some "88996710011" })
        { sock := some 0, isConnected := true, qrCode := none,
          authDir := none, live := [0], nextId := 1 }
        (fun _ _ => Except.ok (some { key := some { id := some "m1" } }))
        100 (some 7)
        { clienteId := 1, tipo := "manual", conteudo := "hello" }).result
      = Except.ok (true, some "m1") ∧
    (mensagensCreate (some { id := 1, telefone := some "88996710011" })
        { sock := some 0, isConnected := true, qrCode := none,
          authDir := none, live := [0], nextId := 1 }
        (fun _ _ => Except.ok (some { key := some { id := some "m2" } }))
        100 (some 7)
        { clienteId := 1, tipo := "manual", conteudo := "hello" }).result
      = Except.ok (true, some "m2") ∧
    (mensagensCreate (some { id := 1, telefone := some "88996710011" })
        { sock := some 0, isConnected := true, qrCode := none,
          authDir := none, live := [0], nextId := 1 }
        (fun _ _ => Except.ok (some { key := some { id := some "m1" } }))
        100 (some 7)
        { clienteId := 1, tipo := "manual", conteudo := "hello" }).persisted
      =
      (mensagensCreate (some { id := 1, telefone := some "88996710011" })
        { sock := some 0, isConnected := true, qrCode := none,
          authDir := none, live := [0], nextId := 1 }
        (fun _ _ => Except.ok (some { key := some { id := some "m2" } }))
        100 (some 7)
        { clienteId := 1, tipo := "manual", conteudo := "hello" }).persisted :=
  ⟨rfl, rfl, rfl⟩

/-- C8 amended: for a found client with a usable phone, mensagens.create
persists exactly one row — on success with status "enviada" and the sent
timestamp, on failure with status "erro" and no timestamp; the returned
identifier is only handed back to the caller (not persisted), and a send
failure is rethrown as an error. -/
theorem mensagens_create_persists_one_record (c : Cliente) (st : WAState)
    (sendMessage : String → String → Except String (Option SendResult))
    (now : Nat) (userId : Option Nat) (input : MensagemInput)
    (hphone : telefoneFalsy c.telefone = false) :
    ∃ r : MensagemRecord,
      (mensagensCreate (some c) st sendMessage now userId input).persisted = [r] ∧
      r.status = (if (enviarMensagemBaileys st sendMessage (c.telefone.getD "")
          input.conteudo).1.success then "enviada" else "erro") ∧
      r.dataEnvio = (if (enviarMensagemBaileys st sendMessage (c.telefone.getD "")
          input.conteudo).1.success then some now else none) ∧
      (mensagensCreate (some c) st sendMessage now userId input).result =
        (if (enviarMensagemBaileys st sendMessage (c.telefone.getD "")
            input.conteudo).1.success then
          Except.ok (true,
            (enviarMensagemBaileys st sendMessage (c.telefone.getD "")
              input.conteudo).1.messageId)
        else
          Except.error (jsOr (enviarMensagemBaileys st sendMessage
            (c.telefone.getD "") input.conteudo).1.error
            "Erro ao enviar mensagem")) := by
  refine ⟨{ clienteId := input.clienteId, tipo := input.tipo,
            conteudo := input.conteudo,
            status := if (enviarMensagemBaileys st sendMessage
              (c.telefone.getD "") input.conteudo).1.success
              then "enviada" else "erro",
            dataEnvio := if (enviarMensagemBaileys st sendMessage
              (c.telefone.getD "") input.conteudo).1.success
              then some now else none,
            usuarioId := userId }, ?_, rfl, rfl, ?_⟩ <;>
    (by_cases hsucc : (enviarMensagemBaileys st sendMessage (c.telefone.getD "")
        input.conteudo).1.success = true <;>
      simp [mensagensCreate, hphone, hsucc])

/-- Witness for the amended C8 at a concrete open state and client. -/
theorem mensagens_create_persists_one_record_witness :
    ∃ r : MensagemRecord,
      (mensagensCreate (some { id := 1, telefone := some "88996710011" })
          { sock := some 0, isConnected := true, qrCode := none,
            authDir := none, live := [0], nextId := 1 }
          (fun _ _ => Except.ok (some { key := some { id := some "m1" } }))
          100 (some 7)
          { clienteId := 1, tipo := "manual", conteudo := "hello" }).persisted = [r] ∧
      r.status = (if (enviarMensagemBaileys
          { sock := some 0, isConnected := true, qrCode := none,
            authDir := none, live := [0], nextId := 1 }
          (fun _ _ => Except.ok (some { key := some { id := some "m1" } }))
          ((some "88996710011").getD "") "hello").1.success then "enviada" else "erro") ∧
      r.dataEnvio = (if (enviarMensagemBaileys
          { sock := some 0, isConnected := true, qrCode := none,
            authDir := none, live := [0], nextId := 1 }
          (fun _ _ => Except.ok (some { key := some { id := some "m1" } }))
          ((some "88996710011").getD "") "hello").1.success then some 100 else none) ∧
      (mensagensCreate (some { id := 1, telefone := some "88996710011" })
          { sock := some 0, isConnected := true, qrCode := none,
            authDir := none, live := [0], nextId := 1 }
          (fun _ _ => Except.ok (some { key := some { id := some "m1" } }))
          100 (some 7)
          { clienteId := 1, tipo := "manual", conteudo := "hello" }).result =
        (if (enviarMensagemBaileys
            { sock := some 0, isConnected := true, qrCode := none,
              authDir := none, live := [0], nextId := 1 }
            (fun _ _ => Except.ok (some { key := some { id := some "m1" } }))
            ((some "88996710011").getD "") "hello").1.success then
          Except.ok (true, (enviarMensagemBaileys
            { sock := some 0, isConnected := true, qrCode := none,
              authDir := none, live := [0], nextId := 1 }
            (fun _ _ => Except.ok (some { key := some { id := some "m1" } }))
            ((some "88996710011").getD "") "hello").1.messageId)
        else
          Except.error (jsOr (enviarMensagemBaileys
            { sock := some 0, isConnected := true, qrCode := none,
              authDir := none, live := [0], nextId := 1 }
            (fun _ _ => Except.ok (some { key := some { id := some "m1" } }))
            ((some "88996710011").getD "") "hello").1.error
            "Erro ao enviar mensagem")) :=
  mensagens_create_persists_one_record
    { id := 1, telefone := some "88996710011" }
    { sock := some 0, isConnected := true, qrCode := none,
      authDir := none, live := [0], nextId := 1 }
    (fun _ _ => Except.ok (some { key := some { id := some "m1" } }))
    100 (some 7)
    { clienteId := 1, tipo := "manual", conteudo := "hello" } rfl

end CrmGas
